import Mathlib

/-!
Verification development for the NBA data-sync service
(`services/data-sync` of the nba-games-with-friends repository).

We shallowly embed the parts of the Python code that the spec's testable
properties are about: the resilient API-call wrapper `safe_call_nba_api`
(utils.py), the fantasy-score formula `calculate_fantasy_score` (utils.py),
the game and player-stat transformers (services/game_service.py,
services/game_player_stats_service.py), the task-queue worker
(worker.py) and the checkpointed backfill driver
(check-data/backfill_data.py).

Python floats are embedded as rationals (ℚ), datetimes as integer
timestamps / seconds-of-day, and exceptions as explicit outcome values.

The file is organized as: all definitions first, then the theorems.
-/

namespace NbaSync

/-! ## Resilient fetcher: `safe_call_nba_api` (services/data-sync/utils.py, lines 65-238)

The wrapper calls `call_fn` up to `max_retries` times.  Each failed call is
classified by the `except` clauses of the Python loop; the classification,
the per-attempt random draws and the delay arithmetic are embedded below.
The zero-argument callable is embedded as a function from the attempt
number (1-based) to the attempt's outcome; `random.uniform` draws are
passed in explicitly, one record per attempt. -/

/-- Outcome of a single `call_fn()` invocation, mirroring the `except`
clauses of `safe_call_nba_api`:
`timeoutErr` is `ReadTimeout`/`Timeout` (one clause handles both);
`connError proxyish` is `ConnectionError`, with `proxyish` recording
whether `str(e)` matches one of the proxy/tunnel/reset substrings;
`httpErr is429` is `HTTPError`, with `is429` recording that a response is
attached with status code 429; the `other*` constructors are the generic
`except Exception` clause split by its internal string tests
(proxy/SSL substring, `RemoteDisconnected`/`429` substring, the known
empty-response `AttributeError`, and everything else, which breaks the
loop). -/
inductive ApiOutcome where
  | success (v : Nat)
  | timeoutErr
  | connError (proxyish : Bool)
  | httpErr (is429 : Bool)
  | otherProxyish
  | otherRateLimited
  | otherEmptyResponse
  | otherUnknown
deriving DecidableEq, Repr

/-- Per-attempt values of the three `random.uniform` draws that can occur
in the retry-delay computation (utils.py lines 214-228):
`uProxy` is the `random.uniform(0, 5)` draw on the proxy-rotation path,
`uExtra` the `random.uniform(0, 30)` rate-limit extra draw, and
`uJitter` the `random.uniform(0, 3)` jitter draw. -/
structure RetryDraws where
  uProxy : ℚ
  uExtra : ℚ
  uJitter : ℚ
deriving DecidableEq, Repr

/-- Whether the except clause for this outcome ends the retry loop via
`break` (utils.py line 212: unclassified exceptions abort immediately). -/
def outcomeAborts : ApiOutcome → Bool
  | .otherUnknown => true
  | _ => false

/-- Whether the except clause sets `proxy_failure = True`
(utils.py lines 164, 180, 204). -/
def outcomeSetsProxyFailure (proxyConfigured : Bool) : ApiOutcome → Bool
  | .timeoutErr => proxyConfigured
  | .connError proxyish => proxyish
  | .otherProxyish => true
  | _ => false

/-- Whether the except clause sets `rate_limited = True`
(utils.py lines 167, 192, 207). -/
def outcomeSetsRateLimited (proxyConfigured : Bool) : ApiOutcome → Bool
  | .timeoutErr => !proxyConfigured
  | .httpErr is429 => is429
  | .otherRateLimited => true
  | _ => false

/-- Delay slept before the next attempt, embedding utils.py lines 214-228:
on the proxy-rotation path `3.0 + random.uniform(0, 5)`; otherwise
`min(base_delay * 2 ** (attempt - 1), 30.0)` plus, when rate-limited,
`30 + random.uniform(0, 30)`, plus `random.uniform(0, 3)` jitter. -/
def retry_delay (baseDelay : ℚ) (attempt : Nat) (proxyFailure rateLimited : Bool)
    (d : RetryDraws) : ℚ :=
  if proxyFailure then 3 + d.uProxy
  else
    min (baseDelay * 2 ^ (attempt - 1)) 30 + (if rateLimited then 30 + d.uExtra else 0)
      + d.uJitter

/-- Result of a run of the wrapper: the returned value (`none` embeds the
Python `None` give-up return), the number of `call_fn()` invocations made,
and the list of delays slept between attempts. -/
structure LoopResult where
  result : Option Nat
  calls : Nat
  delays : List ℚ
deriving DecidableEq, Repr

/-- One iteration layer of the `while attempt <= max_retries` loop of
`safe_call_nba_api`.  `attempt` is the 1-based attempt counter,
`fuel` the number of loop iterations still allowed
(`max_retries - attempt + 1` at every call), and `rateLimited` the
persistent `rate_limited` flag.  The `proxy_failure` flag is set by the
current iteration's except clause and consumed (and reset) by the same
iteration's delay computation, so it is iteration-local here. -/
def safeCallGo (outcome : Nat → ApiOutcome) (draws : Nat → RetryDraws)
    (proxyConfigured : Bool) (maxRetries : Nat) (baseDelay : ℚ) :
    Nat → Nat → Bool → LoopResult
  | _, 0, _ => ⟨none, 0, []⟩
  | attempt, fuel + 1, rateLimited =>
    match outcome attempt with
    | .success v => ⟨some v, 1, []⟩
    | o =>
      if outcomeAborts o then ⟨none, 1, []⟩
      else
        let rl := rateLimited || outcomeSetsRateLimited proxyConfigured o
        let pf := outcomeSetsProxyFailure proxyConfigured o
        if attempt < maxRetries then
          let d := retry_delay baseDelay attempt pf rl (draws attempt)
          let rest := safeCallGo outcome draws proxyConfigured maxRetries baseDelay
            (attempt + 1) fuel rl
          ⟨rest.result, rest.calls + 1, d :: rest.delays⟩
        else ⟨none, 1, []⟩

/-- Embedding of `safe_call_nba_api` (utils.py lines 65-238).
`proxyConfigured` embeds `NBA_STATS_PROXY` being set in the environment.
The loop starts at `attempt = 1` with both failure flags clear; every
code path of the Python function either returns the call result or falls
through to `return None`, which the totality of this embedding reflects
(no exception escapes the wrapper). -/
def safe_call_nba_api (proxyConfigured : Bool) (outcome : Nat → ApiOutcome)
    (draws : Nat → RetryDraws) (maxRetries : Nat) (baseDelay : ℚ) : LoopResult :=
  safeCallGo outcome draws proxyConfigured maxRetries baseDelay 1 maxRetries false

/-! ## Task-queue worker (services/data-sync/worker.py)

The queue is the `task_queue` table; a row is embedded as `QTask`.
`fetch_pending_task` (lines 538-571) first selects the oldest PENDING row
and then issues a conditional update scoped by `id` and
`status = PENDING`.  A concurrent worker may change the row between the
select and the update, so the embedding takes two database snapshots: one
at select time and one at update time. -/

/-- Status enumeration of the `task_queue.status` column. -/
inductive TaskStatus where
  | PENDING
  | PROCESSING
  | COMPLETED
  | FAILED
deriving DecidableEq, Repr

/-- Row of the `task_queue` table, with the columns the worker reads and
writes (the JSON payload is pre-applied to the handler in this embedding;
timestamps other than `created_at` are not modelled). -/
structure QTask where
  id : Nat
  status : TaskStatus
  createdAt : Nat
  taskType : String
  errorLog : Option String
deriving DecidableEq, Repr

/-- Embedding of the select in `fetch_pending_task` (worker.py lines
545-550): the oldest row with `status = PENDING`
(`order("created_at", desc=False).limit(1)`). -/
def selectOldestPending (tasks : List QTask) : Option QTask :=
  (tasks.filter (fun t => t.status = TaskStatus.PENDING)).argmin (fun t => t.createdAt)

/-- Embedding of the conditional claim update in `fetch_pending_task`
(worker.py lines 557-566): set `status = PROCESSING` on rows matching
`id = tid` AND `status = PENDING`; returns the updated table together
with the number of rows the update affected. -/
def claimUpdate (tasks : List QTask) (tid : Nat) : List QTask × Nat :=
  (tasks.map fun t =>
      if t.id = tid ∧ t.status = TaskStatus.PENDING then
        { t with status := TaskStatus.PROCESSING }
      else t,
    (tasks.filter fun t => t.id = tid ∧ t.status = TaskStatus.PENDING).length)

/-- Embedding of `fetch_pending_task` (worker.py lines 538-571).
`dbAtSelect` is the table contents seen by the select, `dbAtUpdate` those
seen by the conditional update (they differ when another worker raced in
between).  The Python function returns `task` unconditionally after
issuing the update: the update's affected-row count is never inspected. -/
def fetch_pending_task (dbAtSelect dbAtUpdate : List QTask) :
    Option QTask × List QTask :=
  match selectOldestPending dbAtSelect with
  | none => (none, dbAtUpdate)
  | some t => (some t, (claimUpdate dbAtUpdate t.id).1)

/-- The task dispatched to `process_task` by one iteration of the
`run_worker` loop (worker.py lines 655-681): whatever `fetch_pending_task`
returned, if anything. -/
def workerIterationDispatch (dbAtSelect dbAtUpdate : List QTask) : Option QTask :=
  (fetch_pending_task dbAtSelect dbAtUpdate).1

/-- Outcome of invoking a task handler on the task's payload: `.ok b`
embeds a normal return of boolean `b`, `.error msg` embeds the handler
raising an exception whose message text is `msg`. -/
abbrev HandlerOutcome := Except String Bool

/-- Embedding of `process_task` (worker.py lines 594-619): look the
handler up in `TASK_HANDLERS` by the task's type tag (unknown tag fails
the task), run it, and convert a raised exception into a `False` return
after logging it.  The registry entry carries the outcome of invoking the
handler on this task's payload. -/
def process_task (handlers : List (String × HandlerOutcome)) (task : QTask) : Bool :=
  match (handlers.find? fun h => h.1 = task.taskType) with
  | none => false
  | some h =>
    match h.2 with
    | .ok b => b
    | .error _ => false

/-- Truncation `s[:1000]` of Python string slicing: keep the first `n`
code points. -/
def truncateStr (n : Nat) (s : String) : String :=
  String.mk (s.data.take n)

/-- Embedding of `update_task_status` (worker.py lines 574-591): write the
terminal status; attach `error_log` only when an error string is present
and non-empty (Python truthiness of `if error:`), truncated to 1000
characters. -/
def update_task_status (task : QTask) (status : TaskStatus)
    (error : Option String) : QTask :=
  { task with
    status := status
    errorLog :=
      match error with
      | some e => if e = "" then task.errorLog else some (truncateStr 1000 e)
      | none => task.errorLog }

/-- Embedding of the finalization step of the `run_worker` loop
(worker.py lines 666-675): a successful task is marked COMPLETED, an
unsuccessful one FAILED with the fixed error string
"Task handler returned failure". -/
def workerFinalize (handlers : List (String × HandlerOutcome)) (task : QTask) : QTask :=
  if process_task handlers task then
    update_task_status task TaskStatus.COMPLETED none
  else
    update_task_status task TaskStatus.FAILED (some "Task handler returned failure")

/-! ## Game transformer (services/data-sync/services/game_service.py)

`_transform_game_data` (lines 261-396) maps a provider game dict to a
`games` row.  We embed the two fragments the spec's properties are about:
the `gameTimeUTC` parse with its TBD detection (lines 303-335) and the
status self-correction (lines 345-366). -/

/-- The `games.status` enumeration produced by `_map_game_status`. -/
inductive GameStatus where
  | Scheduled
  | Live
  | Final
deriving DecidableEq, Repr

/-- Embedding of `_map_game_status` (game_service.py lines 54-69):
1 ↦ Scheduled, 2 ↦ Live, 3 ↦ Final, anything else ↦ Scheduled. -/
def map_game_status (code : Nat) : GameStatus :=
  if code = 1 then GameStatus.Scheduled
  else if code = 2 then GameStatus.Live
  else if code = 3 then GameStatus.Final
  else GameStatus.Scheduled

/-- Shape of the `gameTimeUTC` string after parsing
(game_service.py lines 310-324): a string containing `T` parses via
`datetime.fromisoformat` to a wall-clock time (hour/minute/second as
written) plus an optional UTC-offset in minutes (`none` embeds a naive
timestamp, which the code localizes as UTC); a date-only string parses
via `strptime("%Y-%m-%d")`. -/
inductive GameTimeInput where
  | iso (hour minute second : Nat) (offsetMinutes : Option Int)
  | dateOnly
deriving DecidableEq, Repr

/-- Embedding of the `is_time_tbd` computation
(game_service.py lines 310-324): for an ISO timestamp the flag tests
`dt.hour == 0 and dt.minute == 0 and dt.second == 0` on the parsed value,
BEFORE the `astimezone(pytz.UTC)` conversion of line 330; a date-only
input is always flagged. -/
def gameTimeTbdFlag : GameTimeInput → Bool
  | .iso h m s _ => h = 0 && m = 0 && s = 0
  | .dateOnly => true

/-- The UTC second-of-day of the stored `game_datetime` after the
timezone normalization of game_service.py lines 320-330: an ISO
timestamp is shifted by its offset (a naive one is taken as UTC as-is);
a date-only input is stored as noon UTC (line 322). -/
def utcSecondsOfDay : GameTimeInput → Int
  | .iso h m s off => ((h : Int) * 3600 + (m : Int) * 60 + (s : Int) - (off.getD 0) * 60) % 86400
  | .dateOnly => 12 * 3600

/-- Modelled from the spec (reference definition for comparison with the
code, not translated from it): the claim's flag, true exactly when the
timestamp normalizes to midnight UTC after timezone conversion, and
always true for a date-only input. -/
def midnightUtcAfterConversion : GameTimeInput → Bool
  | .dateOnly => true
  | t => utcSecondsOfDay t = 0

/-- Embedding of the status self-correction
(game_service.py lines 353-366): when `game_datetime < now` and both
scores are present, force status Final; when `game_datetime < now`, not
both scores present and status is Scheduled, set the `_needs_refetch`
flag (second component); otherwise leave status and flag alone. -/
def correctGameStatus (gameDatetime nowUtc : Int) (status : GameStatus)
    (homeScore awayScore : Option Int) : GameStatus × Bool :=
  if gameDatetime < nowUtc then
    if homeScore.isSome && awayScore.isSome then (GameStatus.Final, false)
    else if status = GameStatus.Scheduled then (status, true)
    else (status, false)
  else (status, false)

/-! ## Fantasy score (services/data-sync/utils.py, lines 279-346)

`calculate_fantasy_score` reads a rule set from a JSON configuration.
Floats are embedded as ℚ; Python's `round` (round-half-to-even on the
value) is embedded as decimal round-half-even on the rational. -/

/-- The six stat keys of the `stats_map` dict built in
`calculate_fantasy_score` (utils.py lines 313-320). -/
inductive StatName where
  | pts
  | reb
  | ast
  | stl
  | blk
  | tov
deriving DecidableEq, Repr

/-- One entry of the configuration's `rules` dict: the stat it points at
(`none` embeds a rule whose `stat` is missing or names no key of
`stats_map`, which the loop skips) and its coefficient
(`get('coefficient', 0.0)` resolved at parse time). -/
structure ScoringRule where
  stat : Option StatName
  coefficient : ℚ
deriving DecidableEq, Repr

/-- The configuration's `calculation` section: minimum value and the
rounding sub-config (utils.py lines 333-344). -/
structure CalculationCfg where
  minimum : ℚ
  roundingEnabled : Bool
  roundingDecimals : Nat
deriving DecidableEq, Repr

/-- A fantasy-scoring configuration: `rules` plus `calculation`. -/
structure FantasyConfig where
  rules : List ScoringRule
  calculation : CalculationCfg
deriving DecidableEq, Repr

/-- The six box-score inputs of `calculate_fantasy_score`. -/
structure StatLine where
  pts : ℚ
  reb : ℚ
  ast : ℚ
  stl : ℚ
  blk : ℚ
  tov : ℚ
deriving DecidableEq, Repr

/-- The `stats_map` lookup of utils.py lines 313-320. -/
def statsMap (s : StatLine) : StatName → ℚ
  | .pts => s.pts
  | .reb => s.reb
  | .ast => s.ast
  | .stl => s.stl
  | .blk => s.blk
  | .tov => s.tov

/-- Round-half-to-even to an integer (the tie-breaking rule of Python's
built-in `round`). -/
def roundHalfEven (x : ℚ) : ℤ :=
  let f := ⌊x⌋
  if x - f < 1 / 2 then f
  else if 1 / 2 < x - f then f + 1
  else if f % 2 = 0 then f else f + 1

/-- Python's `round(x, decimals)` embedded on ℚ. -/
def pyRound (decimals : Nat) (x : ℚ) : ℚ :=
  (roundHalfEven (x * 10 ^ decimals) : ℚ) / 10 ^ decimals

/-- Embedding of `calculate_fantasy_score` (utils.py lines 279-346):
sum `stat_value * coefficient` over the rules whose stat names a
`stats_map` key, lift the sum to the configured minimum, then round to
the configured decimals when rounding is enabled and to 1 decimal
otherwise (the legacy backward-compatibility branch, line 344). -/
def calculate_fantasy_score (s : StatLine) (cfg : FantasyConfig) : ℚ :=
  let base := cfg.rules.foldl
    (fun acc r =>
      match r.stat with
      | some n => acc + statsMap s n * r.coefficient
      | none => acc) 0
  let floored := if base < cfg.calculation.minimum then cfg.calculation.minimum else base
  if cfg.calculation.roundingEnabled then pyRound cfg.calculation.roundingDecimals floored
  else pyRound 1 floored

/-- Modelled from the spec: the repository's `fantasy-scoring.json`
configuration file (loaded by `load_fantasy_scoring_config`, utils.py
lines 241-276) is not under src/, so the default configuration is taken
from the spec's words: coefficients pts=1.0, reb=1.2, ast=1.5, stl=3.0,
blk=3.0, tov=-1.0, minimum 0, rounding enabled with 2 decimals. -/
def defaultFantasyConfig : FantasyConfig :=
  { rules :=
      [⟨some StatName.pts, 1⟩, ⟨some StatName.reb, 6 / 5⟩, ⟨some StatName.ast, 3 / 2⟩,
        ⟨some StatName.stl, 3⟩, ⟨some StatName.blk, 3⟩, ⟨some StatName.tov, -1⟩]
    calculation := ⟨0, true, 2⟩ }

/-! ## Player-stat transformer (services/data-sync/services/game_player_stats_service.py)

`_transform_player_stat` (lines 224-317) validates the row's foreign keys
against pre-fetched id sets and builds a `game_player_stats` row; the
caller loop in `sync_game_details` (lines 370-389) counts skipped rows. -/

/-- A raw JSON field value as seen by `_safe_int`/`_safe_float`
(game_player_stats_service.py lines 12-47): `num` is a JSON number,
`numStr` a string parsing as a number, `nullVal` is `None`/NaN, and
`junk` any empty or unparsable value. -/
inductive JsonVal where
  | num (q : ℚ)
  | numStr (q : ℚ)
  | nullVal
  | junk
deriving DecidableEq, Repr

/-- Python's `int(float(v))`: truncation toward zero. -/
def pyInt (q : ℚ) : Int :=
  if q < 0 then ⌈q⌉ else ⌊q⌋

/-- Embedding of `_safe_int` (game_player_stats_service.py lines 12-28). -/
def safe_int (v : JsonVal) (default : Int) : Int :=
  match v with
  | .num q => pyInt q
  | .numStr q => pyInt q
  | .nullVal => default
  | .junk => default

/-- Embedding of `_safe_float` (game_player_stats_service.py lines 31-47). -/
def safe_float (v : JsonVal) (default : ℚ) : ℚ :=
  match v with
  | .num q => q
  | .numStr q => q
  | .nullVal => default
  | .junk => default

/-- The `statistics` sub-dict of a raw player-stat row, with the fields
`_transform_player_stat` reads (each `none` embeds a missing key). -/
structure RawStats where
  minutes : Option String
  points : Option JsonVal
  reboundsTotal : Option JsonVal
  assists : Option JsonVal
  steals : Option JsonVal
  blocks : Option JsonVal
  turnovers : Option JsonVal
  foulsPersonal : Option JsonVal
  plusMinusPoints : Option JsonVal
  fieldGoalsMade : Option JsonVal
  fieldGoalsAttempted : Option JsonVal
  fieldGoalsPercentage : Option JsonVal
  threePointersMade : Option JsonVal
  threePointersAttempted : Option JsonVal
  freeThrowsMade : Option JsonVal
  freeThrowsAttempted : Option JsonVal
deriving DecidableEq, Repr

/-- A raw player-stat row `{PLAYER_ID, TEAM_ID, statistics}`;
`statistics = none` embeds a missing or empty (falsy) statistics dict. -/
structure RawPlayerStat where
  playerId : Option JsonVal
  teamId : Option JsonVal
  statistics : Option RawStats
deriving DecidableEq, Repr

/-- A `game_player_stats` row as built by `_transform_player_stat`
(game_player_stats_service.py lines 294-315); `minPlayed` is the `min`
column. -/
structure PlayerStatRecord where
  game_id : String
  player_id : Int
  team_id : Int
  minPlayed : Option String
  fantasy_score : ℚ
  pts : Int
  reb : Int
  ast : Int
  stl : Int
  blk : Int
  tov : Int
  pf : Int
  plus_minus : Int
  fgm : Int
  fga : Int
  fg_pct : ℚ
  fg3m : Int
  fg3a : Int
  ftm : Int
  fta : Int
deriving DecidableEq, Repr

/-- Embedding of `_transform_player_stat`
(game_player_stats_service.py lines 224-317, source name with a leading
underscore).  Foreign keys are validated first: a zero or unknown player
id, then a zero or unknown team id, then an empty statistics dict each
yield the skip signal `none`. -/
def transform_player_stat (stat : RawPlayerStat) (gameId : String)
    (validPlayerIds validTeamIds : List Int) : Option PlayerStatRecord :=
  let player_id := safe_int (stat.playerId.getD (JsonVal.num 0)) 0
  let team_id := safe_int (stat.teamId.getD (JsonVal.num 0)) 0
  if player_id = 0 ∨ player_id ∉ validPlayerIds then none
  else if team_id = 0 ∨ team_id ∉ validTeamIds then none
  else
    match stat.statistics with
    | none => none
    | some stats =>
      let minPlayed :=
        match stats.minutes with
        | some str => if str = "" then none else some str.trim
        | none => none
      let pts := safe_int (stats.points.getD (JsonVal.num 0)) 0
      let reb := safe_int (stats.reboundsTotal.getD (JsonVal.num 0)) 0
      let ast := safe_int (stats.assists.getD (JsonVal.num 0)) 0
      let stl := safe_int (stats.steals.getD (JsonVal.num 0)) 0
      let blk := safe_int (stats.blocks.getD (JsonVal.num 0)) 0
      let tov := safe_int (stats.turnovers.getD (JsonVal.num 0)) 0
      let pf := safe_int (stats.foulsPersonal.getD (JsonVal.num 0)) 0
      let plus_minus := safe_int (stats.plusMinusPoints.getD (JsonVal.num 0)) 0
      let fgm := safe_int (stats.fieldGoalsMade.getD (JsonVal.num 0)) 0
      let fga := safe_int (stats.fieldGoalsAttempted.getD (JsonVal.num 0)) 0
      let fg_pct := safe_float (stats.fieldGoalsPercentage.getD (JsonVal.num 0)) 0
      let fg3m := safe_int (stats.threePointersMade.getD (JsonVal.num 0)) 0
      let fg3a := safe_int (stats.threePointersAttempted.getD (JsonVal.num 0)) 0
      let ftm := safe_int (stats.freeThrowsMade.getD (JsonVal.num 0)) 0
      let fta := safe_int (stats.freeThrowsAttempted.getD (JsonVal.num 0)) 0
      some
        { game_id := gameId
          player_id := player_id
          team_id := team_id
          minPlayed := minPlayed
          fantasy_score :=
            calculate_fantasy_score
              ⟨(pts : ℚ), (reb : ℚ), (ast : ℚ), (stl : ℚ), (blk : ℚ), (tov : ℚ)⟩
              defaultFantasyConfig
          pts := pts
          reb := reb
          ast := ast
          stl := stl
          blk := blk
          tov := tov
          pf := pf
          plus_minus := plus_minus
          fgm := fgm
          fga := fga
          fg_pct := fg_pct
          fg3m := fg3m
          fg3a := fg3a
          ftm := ftm
          fta := fta }

/-- Embedding of the transform loop of `sync_game_details`
(game_player_stats_service.py lines 370-389): rows transforming to a
record are collected in order, rows transforming to the skip signal are
counted in `skipped_count` (the second component). -/
def transformPlayerStats (gameId : String) (validPlayerIds validTeamIds : List Int) :
    List RawPlayerStat → List PlayerStatRecord × Nat
  | [] => ([], 0)
  | r :: rs =>
    let rest := transformPlayerStats gameId validPlayerIds validTeamIds rs
    match transform_player_stat r gameId validPlayerIds validTeamIds with
    | some rec => (rec :: rest.1, rest.2)
    | none => (rest.1, rest.2 + 1)

/-! ## Checkpointed backfill (services/data-sync/check-data/backfill_data.py)

`BackfillProgress` (lines 114-172) persists completed work units to a
checkpoint file; `get_dates_needing_sync` (lines 200-214) and
`get_games_needing_stats` (lines 217-239) build the remaining work lists;
`run_phase1` (lines 397-429) skips a completed phase and first repairs
orphaned games.  Calendar dates are embedded as day ordinals (natural
numbers), matching the one-day stepping of the Python date loops. -/

/-- Contents of the checkpoint file (the JSON read in
`BackfillProgress.load`, lines 126-141). -/
structure CheckpointData where
  completedDates : List Nat
  completedGameStats : List String
  completedAdvancedStats : List String
  phase1Complete : Bool
  phase2Complete : Bool
deriving DecidableEq, Repr

/-- In-memory progress state of `BackfillProgress`. -/
structure BackfillProgress where
  completedDates : List Nat
  completedGameStats : List String
  completedAdvancedStats : List String
  phase1Complete : Bool
  phase2Complete : Bool
deriving DecidableEq, Repr

/-- Embedding of `BackfillProgress.__init__` + `load` (backfill_data.py
lines 117-141): fresh empty state, overwritten from the checkpoint file
when one exists (`none` embeds a missing file). -/
def loadProgress : Option CheckpointData → BackfillProgress
  | none => ⟨[], [], [], false, false⟩
  | some d =>
    ⟨d.completedDates, d.completedGameStats, d.completedAdvancedStats,
      d.phase1Complete, d.phase2Complete⟩

/-- Embedding of `get_dates_needing_sync` (backfill_data.py lines
200-214): every date from season start to today, excluding those in
`completed_dates`. -/
def get_dates_needing_sync (seasonStart today : Nat) (p : BackfillProgress) : List Nat :=
  (List.range' seasonStart (today + 1 - seasonStart)).filter
    (fun d => d ∉ p.completedDates)

/-- Embedding of `get_games_needing_stats` (backfill_data.py lines
217-239): Final games that neither already have stats rows nor are in
`completed_game_stats`. -/
def get_games_needing_stats (finalGames gamesWithStats : List String)
    (p : BackfillProgress) : List String :=
  finalGames.filter (fun g => g ∉ gamesWithStats ∧ g ∉ p.completedGameStats)

/-- The dates the phase-1 driver syncs (backfill_data.py lines 397-429):
nothing when the checkpoint marks phase 1 complete (lines 401-403);
otherwise first the orphan-repair dates of step 0 — `sorted(set(...))` of
the dates of the database's Scheduled-but-past games, a list NOT filtered
against the checkpoint (`fix_orphaned_games`, lines 288-330) — and then
the dates needing sync (step 1a, lines 412-429). -/
def run_phase1_dates (orphanedGameDates : List Nat) (seasonStart today : Nat)
    (p : BackfillProgress) : List Nat :=
  if p.phase1Complete then []
  else
    (orphanedGameDates.dedup.insertionSort (· ≤ ·))
      ++ get_dates_needing_sync seasonStart today p

/-! ## SYNC_LIVE_GAME handler (services/data-sync/worker.py, lines 70-106) -/

/-- Payload of a SYNC_LIVE_GAME task: an optional `game_ids` array and an
optional single `game_id`. -/
structure LiveGamePayload where
  gameIds : Option (List String)
  gameId : Option String
deriving DecidableEq, Repr

/-- The game-id list `handle_sync_live_game` iterates (worker.py lines
79-85): `payload.get("game_ids", [])`; when that is empty (falsy), a
truthy single `game_id` becomes a one-element list. -/
def effectiveGameIds (p : LiveGamePayload) : List String :=
  let ids := p.gameIds.getD []
  if ids = [] then
    match p.gameId with
    | some s => if s = "" then [] else [s]
    | none => []
  else ids

/-- Embedding of `handle_sync_live_game` (worker.py lines 70-106).
`syncOk g = true` embeds `sync_single_game(g)` returning without raising;
a raising sync is caught per game.  An empty id list returns True
("nothing to do"); otherwise the result is `success_count > 0`. -/
def handle_sync_live_game (p : LiveGamePayload) (syncOk : String → Bool) : Bool :=
  let ids := effectiveGameIds p
  if ids = [] then true
  else decide (0 < ids.countP syncOk)

/-! ## Theorems -/

/-- C2: a zero-argument call that always raises a timeout-class error
(ReadTimeout/Timeout), run through `safe_call_nba_api` with
`max_retries = 3` and no proxy configured, is invoked exactly 3 times and
the wrapper returns `None` (the absence value); the wrapper's embedding is
total, so no exception propagates out of it. -/
theorem retry_exhaustion_returns_none (outcome : Nat → ApiOutcome)
    (draws : Nat → RetryDraws)
    (h : ∀ n, outcome n = ApiOutcome.timeoutErr) :
    (safe_call_nba_api false outcome draws 3 5).result = none ∧
    (safe_call_nba_api false outcome draws 3 5).calls = 3 := by
  simp [safe_call_nba_api, safeCallGo, h 1, h 2, h 3, outcomeAborts,
    outcomeSetsRateLimited, outcomeSetsProxyFailure]

/-- Witness for `retry_exhaustion_returns_none` at the constantly-timing-out
call with concrete draws. -/
theorem retry_exhaustion_returns_none_witness :
    (safe_call_nba_api false (fun _ => ApiOutcome.timeoutErr) (fun _ => ⟨1, 2, 1⟩) 3 5).result
        = none ∧
    (safe_call_nba_api false (fun _ => ApiOutcome.timeoutErr) (fun _ => ⟨1, 2, 1⟩) 3 5).calls
        = 3 :=
  retry_exhaustion_returns_none (fun _ => ApiOutcome.timeoutErr) (fun _ => ⟨1, 2, 1⟩)
    (fun _ => rfl)

/-- C8: on a non-proxy-rotation retry the delay before attempt `i + 1` is
`min(base_delay * 2 ^ (i - 1), 30)` plus an extra delay in `[30, 60)` when
the rate-limited flag is set, plus jitter in `[0, 3)`; on the
proxy-rotation path the delay lies in `[3, 8)`.  The last conjunct ties
the delay formula to the loop itself: for an always-timing-out call with
`max_retries = 3` and no proxy, the two recorded sleeps are exactly the
non-proxy rate-limited delays for attempts 1 and 2. -/
theorem retry_backoff_schedule (base : ℚ) (i : Nat) (rl : Bool) (d : RetryDraws)
    (hE0 : 0 ≤ d.uExtra) (hE1 : d.uExtra < 30)
    (hJ0 : 0 ≤ d.uJitter) (hJ1 : d.uJitter < 3)
    (hP0 : 0 ≤ d.uProxy) (hP1 : d.uProxy < 5)
    (outcome : Nat → ApiOutcome) (h : ∀ n, outcome n = ApiOutcome.timeoutErr) :
    (retry_delay base i false rl d
        = min (base * 2 ^ (i - 1)) 30 + (if rl then 30 + d.uExtra else 0) + d.uJitter) ∧
    (30 ≤ 30 + d.uExtra ∧ 30 + d.uExtra < 60) ∧
    (3 ≤ retry_delay base i true rl d ∧ retry_delay base i true rl d < 8) ∧
    ((safe_call_nba_api false outcome (fun _ => d) 3 base).delays
        = [retry_delay base 1 false true d, retry_delay base 2 false true d]) := by
  refine ⟨rfl, ⟨by linarith, by linarith⟩, ⟨?_, ?_⟩, ?_⟩
  · simp only [retry_delay, if_pos trivial]
    linarith
  · simp only [retry_delay, if_pos trivial]
    linarith
  · simp [safe_call_nba_api, safeCallGo, h 1, h 2, h 3, outcomeAborts,
      outcomeSetsRateLimited, outcomeSetsProxyFailure]

/-- Witness for `retry_backoff_schedule` with concrete in-range draws. -/
theorem retry_backoff_schedule_witness :
    (retry_delay 5 1 false true ⟨1, 2, 1⟩
        = min ((5 : ℚ) * 2 ^ (1 - 1)) 30 + (if true then 30 + (2 : ℚ) else 0) + 1) ∧
    ((30 : ℚ) ≤ 30 + 2 ∧ (30 : ℚ) + 2 < 60) ∧
    ((3 : ℚ) ≤ retry_delay 5 1 true true ⟨1, 2, 1⟩ ∧ retry_delay 5 1 true true ⟨1, 2, 1⟩ < 8) ∧
    ((safe_call_nba_api false (fun _ => ApiOutcome.timeoutErr) (fun _ => ⟨1, 2, 1⟩) 3 5).delays
        = [retry_delay 5 1 false true ⟨1, 2, 1⟩, retry_delay 5 2 false true ⟨1, 2, 1⟩]) :=
  retry_backoff_schedule 5 1 true ⟨1, 2, 1⟩ (by norm_num) (by norm_num) (by norm_num)
    (by norm_num) (by norm_num) (by norm_num) (fun _ => ApiOutcome.timeoutErr) (fun _ => rfl)

/-- C1: the claim states that a worker whose conditional claim update
matched zero rows does not dispatch the task.  The code violates this:
`fetch_pending_task` never inspects the update's affected-row count, so
the task selected as PENDING is returned — and dispatched by
`run_worker` — even when a concurrent worker already moved it to
PROCESSING and the conditional update therefore affected zero rows.
Concretely: task 1 is PENDING at select time and PROCESSING at update
time; the claim update affects 0 rows, yet the iteration dispatches
task 1. -/
theorem claim_race_loser_still_dispatches :
    (claimUpdate [⟨1, TaskStatus.PROCESSING, 0, "DATA_AUDIT", none⟩] 1).2 = 0 ∧
    workerIterationDispatch
        [⟨1, TaskStatus.PENDING, 0, "DATA_AUDIT", none⟩]
        [⟨1, TaskStatus.PROCESSING, 0, "DATA_AUDIT", none⟩]
      = some ⟨1, TaskStatus.PENDING, 0, "DATA_AUDIT", none⟩ := by
  constructor
  · decide
  · rfl

/-- C7 as stated is false: when a handler raises, the worker marks the
task FAILED but persists the fixed string "Task handler returned failure",
not the exception's message text.  Concretely, a handler raising "boom"
yields `error_log = "Task handler returned failure"` ≠ "boom". -/
theorem handler_exception_message_not_persisted :
    (workerFinalize [("DATA_AUDIT", Except.error "boom")]
        ⟨1, TaskStatus.PROCESSING, 0, "DATA_AUDIT", none⟩).errorLog
      = some "Task handler returned failure" ∧
    (workerFinalize [("DATA_AUDIT", Except.error "boom")]
        ⟨1, TaskStatus.PROCESSING, 0, "DATA_AUDIT", none⟩).errorLog
      ≠ some (truncateStr 1000 "boom") := by
  constructor
  · rfl
  · decide

/-- C7 amended: when a task handler raises an exception, the worker
catches it (the handler invocation is total and returns `False`; nothing
escapes the loop), records the task as FAILED, and persists the fixed
message "Task handler returned failure" (truncated to 1000 characters)
onto the task row's error field; the exception's own message text is only
logged, not persisted. -/
theorem handler_exception_marks_failed (handlers : List (String × HandlerOutcome))
    (task : QTask) (msg : String)
    (h : handlers.find? (fun hd => hd.1 = task.taskType) = some (task.taskType, .error msg)) :
    process_task handlers task = false ∧
    (workerFinalize handlers task).status = TaskStatus.FAILED ∧
    (workerFinalize handlers task).errorLog
      = some (truncateStr 1000 "Task handler returned failure") := by
  have hp : process_task handlers task = false := by
    simp [process_task, h]
  refine ⟨hp, ?_, ?_⟩
  · simp [workerFinalize, hp, update_task_status]
  · simp [workerFinalize, hp, update_task_status]

/-- Witness for `handler_exception_marks_failed` at a concrete raising
handler. -/
theorem handler_exception_marks_failed_witness :
    process_task [("DATA_AUDIT", Except.error "boom")]
        ⟨1, TaskStatus.PROCESSING, 0, "DATA_AUDIT", none⟩ = false ∧
    (workerFinalize [("DATA_AUDIT", Except.error "boom")]
        ⟨1, TaskStatus.PROCESSING, 0, "DATA_AUDIT", none⟩).status = TaskStatus.FAILED ∧
    (workerFinalize [("DATA_AUDIT", Except.error "boom")]
        ⟨1, TaskStatus.PROCESSING, 0, "DATA_AUDIT", none⟩).errorLog
      = some (truncateStr 1000 "Task handler returned failure") :=
  handler_exception_marks_failed [("DATA_AUDIT", Except.error "boom")]
    ⟨1, TaskStatus.PROCESSING, 0, "DATA_AUDIT", none⟩ "boom" (by rfl)

/-- C3: a game whose datetime is strictly before now with both scores
present gets status Final regardless of the provider-reported status; a
game whose datetime is not in the past is never auto-corrected (status
and re-fetch flag unchanged); a past game with status Scheduled and no
scores gets the `_needs_refetch` flag for the secondary deep re-fetch. -/
theorem game_status_self_correction :
    (∀ (dt now : Int) (st : GameStatus) (h a : Int), dt < now →
        (correctGameStatus dt now st (some h) (some a)).1 = GameStatus.Final) ∧
    (∀ (dt now : Int) (st : GameStatus) (hs as_ : Option Int), now ≤ dt →
        correctGameStatus dt now st hs as_ = (st, false)) ∧
    (∀ dt now : Int, dt < now →
        correctGameStatus dt now GameStatus.Scheduled none none
          = (GameStatus.Scheduled, true)) := by
  refine ⟨?_, ?_, ?_⟩
  · intro dt now st h a hlt
    simp [correctGameStatus, hlt]
  · intro dt now st hs as_ hle
    simp [correctGameStatus, not_lt.mpr hle]
  · intro dt now hlt
    simp [correctGameStatus, hlt]

/-- Witness for `game_status_self_correction`: a past Live game with
scores 100-90 is forced Final; a future Scheduled game with scores is
untouched; a past score-less Scheduled game is flagged for re-fetch. -/
theorem game_status_self_correction_witness :
    (correctGameStatus 0 1 GameStatus.Live (some 100) (some 90)).1 = GameStatus.Final ∧
    correctGameStatus 5 2 GameStatus.Scheduled (some 100) (some 90)
      = (GameStatus.Scheduled, false) ∧
    correctGameStatus 0 1 GameStatus.Scheduled none none = (GameStatus.Scheduled, true) :=
  ⟨game_status_self_correction.1 0 1 GameStatus.Live 100 90 (by norm_num),
    game_status_self_correction.2.1 5 2 GameStatus.Scheduled (some 100) (some 90) (by norm_num),
    game_status_self_correction.2.2 0 1 (by norm_num)⟩

/-- C4 as stated is false: the code computes `is_time_tbd` from the
parsed timestamp's wall-clock fields BEFORE the conversion to UTC.  The
provider timestamp 19:00:00 at offset -05:00 normalizes to exactly
midnight UTC, so the claim requires the flag to be true, but the code
leaves it false because the written hour is 19. -/
theorem tbd_midnight_utc_counterexample :
    utcSecondsOfDay (GameTimeInput.iso 19 0 0 (some (-300))) = 0 ∧
    midnightUtcAfterConversion (GameTimeInput.iso 19 0 0 (some (-300))) = true ∧
    gameTimeTbdFlag (GameTimeInput.iso 19 0 0 (some (-300))) = false := by
  refine ⟨by decide, by decide, by decide⟩

/-- C4 amended: the `is_time_tbd` flag is computed from the timestamp as
written, before timezone conversion: it is true exactly when the parsed
hour, minute and second are all zero, and a date-only input is always
flagged true; for a timestamp that is naive or carries a zero UTC offset
(the provider's usual `...Z` form) this coincides with normalizing to
midnight UTC after conversion. -/
theorem tbd_flag_semantics :
    (∀ (h m s : Nat) (off : Option Int),
        (gameTimeTbdFlag (GameTimeInput.iso h m s off) = true ↔ h = 0 ∧ m = 0 ∧ s = 0)) ∧
    gameTimeTbdFlag GameTimeInput.dateOnly = true ∧
    (∀ h m s : Nat, h < 24 → m < 60 → s < 60 →
        gameTimeTbdFlag (GameTimeInput.iso h m s none)
          = midnightUtcAfterConversion (GameTimeInput.iso h m s none)) ∧
    (∀ h m s : Nat, h < 24 → m < 60 → s < 60 →
        gameTimeTbdFlag (GameTimeInput.iso h m s (some 0))
          = midnightUtcAfterConversion (GameTimeInput.iso h m s (some 0))) := by
  have key : ∀ (h m s : Nat), h < 24 → m < 60 → s < 60 →
      (((h : Int) * 3600 + (m : Int) * 60 + (s : Int) - 0 * 60) % 86400 = 0
        ↔ h = 0 ∧ m = 0 ∧ s = 0) := by
    intro h m s hh hm hs
    omega
  refine ⟨?_, rfl, ?_, ?_⟩
  · intro h m s off
    simp [gameTimeTbdFlag, and_assoc]
  · intro h m s hh hm hs
    have hk := key h m s hh hm hs
    simp only [gameTimeTbdFlag, midnightUtcAfterConversion, utcSecondsOfDay,
      Option.getD_none]
    rw [Bool.eq_iff_iff]
    simp only [Bool.and_eq_true, decide_eq_true_eq, and_assoc]
    exact hk.symm
  · intro h m s hh hm hs
    have hk := key h m s hh hm hs
    simp only [gameTimeTbdFlag, midnightUtcAfterConversion, utcSecondsOfDay,
      Option.getD_some]
    rw [Bool.eq_iff_iff]
    simp only [Bool.and_eq_true, decide_eq_true_eq, and_assoc]
    exact hk.symm

/-- Witness for `tbd_flag_semantics` at a concrete 19:30:00 naive
timestamp and the midnight case. -/
theorem tbd_flag_semantics_witness :
    (gameTimeTbdFlag (GameTimeInput.iso 0 0 0 none) = true ↔ 0 = 0 ∧ 0 = 0 ∧ 0 = 0) ∧
    gameTimeTbdFlag (GameTimeInput.iso 19 30 0 none)
      = midnightUtcAfterConversion (GameTimeInput.iso 19 30 0 none) :=
  ⟨tbd_flag_semantics.1 0 0 0 none,
    tbd_flag_semantics.2.2.1 19 30 0 (by norm_num) (by norm_num) (by norm_num)⟩

/-- C5: with the default configuration, the stat line pts=30, reb=10,
ast=5, stl=2, blk=1, tov=3 scores exactly 55.5; in general the score is
the coefficient-weighted sum of the six stats, floored at the configured
minimum, rounded to the configured decimals — and to 1 decimal in the
legacy rounding-disabled mode. -/
theorem fantasy_score_formula :
    calculate_fantasy_score ⟨30, 10, 5, 2, 1, 3⟩ defaultFantasyConfig = 111 / 2 ∧
    (∀ s : StatLine,
        calculate_fantasy_score s defaultFantasyConfig
          = pyRound 2
              (max 0 (s.pts + 6 / 5 * s.reb + 3 / 2 * s.ast + 3 * s.stl + 3 * s.blk
                - s.tov))) ∧
    (∀ (s : StatLine) (m : ℚ) (dec : Nat),
        calculate_fantasy_score s ⟨defaultFantasyConfig.rules, ⟨m, false, dec⟩⟩
          = pyRound 1
              (max m (s.pts + 6 / 5 * s.reb + 3 / 2 * s.ast + 3 * s.stl + 3 * s.blk
                - s.tov))) := by
  have hmax : ∀ a b : ℚ, (if b < a then a else b) = max a b := by
    intro a b
    rcases le_or_lt a b with hle | hlt
    · rw [if_neg (not_lt.mpr hle), max_eq_right hle]
    · rw [if_pos hlt, max_eq_left hlt.le]
  refine ⟨?_, ?_, ?_⟩
  · norm_num [calculate_fantasy_score, defaultFantasyConfig, statsMap, pyRound,
      roundHalfEven]
  · intro s
    simp only [calculate_fantasy_score, defaultFantasyConfig, List.foldl, statsMap, hmax]
    norm_num
    congr 1
    ring
  · intro s m dec
    simp only [calculate_fantasy_score, defaultFantasyConfig, List.foldl, statsMap, hmax]
    norm_num
    congr 1
    ring

/-- C6: a player-stat row whose (zero-defaulted) player id or team id is
missing from the validation sets is transformed to the skip signal; a row
that does transform carries validated, non-zero foreign keys; and the
caller loop counts exactly the skipped rows, so records plus skips
partition the input. -/
theorem player_stat_fk_safety :
    (∀ (stat : RawPlayerStat) (gid : String) (vp vt : List Int) (rec : PlayerStatRecord),
        transform_player_stat stat gid vp vt = some rec →
          rec.player_id ∈ vp ∧ rec.team_id ∈ vt ∧ rec.player_id ≠ 0 ∧ rec.team_id ≠ 0) ∧
    (∀ (stat : RawPlayerStat) (gid : String) (vp vt : List Int),
        (safe_int (stat.playerId.getD (JsonVal.num 0)) 0 = 0 ∨
            safe_int (stat.playerId.getD (JsonVal.num 0)) 0 ∉ vp ∨
            safe_int (stat.teamId.getD (JsonVal.num 0)) 0 = 0 ∨
            safe_int (stat.teamId.getD (JsonVal.num 0)) 0 ∉ vt) →
          transform_player_stat stat gid vp vt = none) ∧
    (∀ (gid : String) (vp vt : List Int) (rows : List RawPlayerStat),
        (transformPlayerStats gid vp vt rows).2
            = (rows.filter (fun r => (transform_player_stat r gid vp vt).isNone)).length ∧
          (transformPlayerStats gid vp vt rows).1.length
              + (transformPlayerStats gid vp vt rows).2 = rows.length) := by
  refine ⟨?_, ?_, ?_⟩
  · intro stat gid vp vt rec h
    by_cases h1 : safe_int (stat.playerId.getD (JsonVal.num 0)) 0 = 0 ∨
        safe_int (stat.playerId.getD (JsonVal.num 0)) 0 ∉ vp
    · simp [transform_player_stat, h1] at h
    · by_cases h2 : safe_int (stat.teamId.getD (JsonVal.num 0)) 0 = 0 ∨
          safe_int (stat.teamId.getD (JsonVal.num 0)) 0 ∉ vt
      · simp [transform_player_stat, h1, h2] at h
      · cases hs : stat.statistics with
        | none => simp [transform_player_stat, h1, h2, hs] at h
        | some stats =>
          simp only [transform_player_stat, h1, h2, hs, if_false] at h
          injection h with h
          subst h
          push_neg at h1 h2
          exact ⟨h1.2, h2.2, h1.1, h2.1⟩
  · intro stat gid vp vt hd
    by_cases h1 : safe_int (stat.playerId.getD (JsonVal.num 0)) 0 = 0 ∨
        safe_int (stat.playerId.getD (JsonVal.num 0)) 0 ∉ vp
    · simp [transform_player_stat, h1]
    · have h2 : safe_int (stat.teamId.getD (JsonVal.num 0)) 0 = 0 ∨
          safe_int (stat.teamId.getD (JsonVal.num 0)) 0 ∉ vt := by tauto
      simp [transform_player_stat, h1, h2]
  · intro gid vp vt rows
    induction rows with
    | nil => simp [transformPlayerStats]
    | cons r rs ih =>
      cases htr : transform_player_stat r gid vp vt with
      | some rec =>
        refine ⟨?_, ?_⟩
        · simp [transformPlayerStats, htr, List.filter_cons, ih.1]
        · simp only [transformPlayerStats, htr, List.length_cons]
          omega
      | none =>
        refine ⟨?_, ?_⟩
        · simp [transformPlayerStats, htr, List.filter_cons, ih.1]
        · simp only [transformPlayerStats, htr, List.length_cons]
          omega

/-- Witness for `player_stat_fk_safety`: a row with player id 201 and
team id 10, both validated, transforms to a record with those foreign
keys, and a row with player id 0 is skipped. -/
theorem player_stat_fk_safety_witness :
    ((⟨"0022400001", 201, 10, none, 0, 0, 0, 0, 0, 0, 0, 0, 0, 0, 0, 0, 0, 0, 0, 0⟩ :
          PlayerStatRecord).player_id ∈ [(201 : Int)] ∧
      (⟨"0022400001", 201, 10, none, 0, 0, 0, 0, 0, 0, 0, 0, 0, 0, 0, 0, 0, 0, 0, 0⟩ :
          PlayerStatRecord).team_id ∈ [(10 : Int)] ∧
      (⟨"0022400001", 201, 10, none, 0, 0, 0, 0, 0, 0, 0, 0, 0, 0, 0, 0, 0, 0, 0, 0⟩ :
          PlayerStatRecord).player_id ≠ 0 ∧
      (⟨"0022400001", 201, 10, none, 0, 0, 0, 0, 0, 0, 0, 0, 0, 0, 0, 0, 0, 0, 0, 0⟩ :
          PlayerStatRecord).team_id ≠ 0) ∧
    transform_player_stat
        ⟨some (JsonVal.num 0), some (JsonVal.num 10), none⟩ "0022400001" [201] [10]
      = none :=
  ⟨player_stat_fk_safety.1
      ⟨some (JsonVal.num 201), some (JsonVal.num 10),
        some ⟨none, none, none, none, none, none, none, none, none, none, none, none,
          none, none, none, none⟩⟩
      "0022400001" [201] [10]
      ⟨"0022400001", 201, 10, none, 0, 0, 0, 0, 0, 0, 0, 0, 0, 0, 0, 0, 0, 0, 0, 0⟩
      (by norm_num [transform_player_stat, safe_int, safe_float, pyInt,
        calculate_fantasy_score, defaultFantasyConfig, statsMap, pyRound, roundHalfEven]),
    player_stat_fk_safety.2.1
      ⟨some (JsonVal.num 0), some (JsonVal.num 10), none⟩ "0022400001" [201] [10]
      (Or.inl (by norm_num [safe_int, pyInt]))⟩

/-- C9 as stated is false: the phase-1 orphaned-game repair prelude
(step 0) derives its dates from the database's Scheduled-but-past games
and does not consult the checkpoint, so a date recorded as complete can
be re-processed.  Concretely: date 5 is in `completed_dates` of the
loaded checkpoint, yet with an orphaned game on date 5 the phase-1 run
processes date 5. -/
theorem backfill_orphan_repair_reprocesses_completed_date :
    5 ∈ (loadProgress (some ⟨[5], [], [], false, false⟩)).completedDates ∧
    5 ∈ run_phase1_dates [5] 0 10 (loadProgress (some ⟨[5], [], [], false, false⟩)) := by
  constructor
  · decide
  · decide

/-- C9 amended: after a restart, every unit recorded complete in the
loaded checkpoint is excluded from the phase work lists — the date list
contains exactly the in-range dates not in `completed_dates`, and the
game-stat list excludes both already-stored games and
`completed_game_stats` — and a phase whose completion flag is set is
skipped entirely; however the phase-1 orphaned-game repair prelude takes
its dates from the database, so every processed date is either an
orphaned-game date or an in-range non-completed date. -/
theorem backfill_resume_skips_completed (cp : CheckpointData) (seasonStart today : Nat)
    (orphanDates : List Nat) (finalGames gamesWithStats : List String) :
    (∀ d ∈ (loadProgress (some cp)).completedDates,
        d ∉ get_dates_needing_sync seasonStart today (loadProgress (some cp))) ∧
    (∀ d : Nat,
        d ∈ get_dates_needing_sync seasonStart today (loadProgress (some cp))
          ↔ seasonStart ≤ d ∧ d ≤ today ∧ d ∉ cp.completedDates) ∧
    (∀ g ∈ cp.completedGameStats,
        g ∉ get_games_needing_stats finalGames gamesWithStats (loadProgress (some cp))) ∧
    (cp.phase1Complete = true →
        run_phase1_dates orphanDates seasonStart today (loadProgress (some cp)) = []) ∧
    (∀ d ∈ run_phase1_dates orphanDates seasonStart today (loadProgress (some cp)),
        d ∈ orphanDates ∨ (seasonStart ≤ d ∧ d ≤ today ∧ d ∉ cp.completedDates)) := by
  have hmem : ∀ d : Nat,
      d ∈ get_dates_needing_sync seasonStart today (loadProgress (some cp))
        ↔ seasonStart ≤ d ∧ d ≤ today ∧ d ∉ cp.completedDates := by
    intro d
    simp only [get_dates_needing_sync, loadProgress, List.mem_filter, List.mem_range'_1,
      decide_eq_true_eq]
    constructor
    · rintro ⟨⟨hlo, hhi⟩, hnc⟩
      exact ⟨hlo, by omega, hnc⟩
    · rintro ⟨hlo, hhi, hnc⟩
      exact ⟨⟨hlo, by omega⟩, hnc⟩
  refine ⟨?_, hmem, ?_, ?_, ?_⟩
  · intro d hd hmem2
    exact ((hmem d).mp hmem2).2.2 hd
  · intro g hg
    simp [get_games_needing_stats, List.mem_filter, loadProgress, hg]
  · intro h1
    simp [run_phase1_dates, loadProgress, h1]
  · intro d hd
    simp only [run_phase1_dates] at hd
    by_cases h1 : (loadProgress (some cp)).phase1Complete
    · simp [h1] at hd
    · rw [if_neg h1, List.mem_append] at hd
      rcases hd with hd | hd
      · left
        have hsorted := ((List.perm_insertionSort (fun a b => a ≤ b) _).mem_iff).mp hd
        exact List.mem_dedup.mp hsorted
      · right
        exact (hmem d).mp hd

/-- Witness for `backfill_resume_skips_completed` at a concrete
checkpoint: date 3 complete, game "A" complete, phase 1 not complete. -/
theorem backfill_resume_skips_completed_witness :
    (∀ d ∈ (loadProgress (some ⟨[3], ["A"], [], false, false⟩)).completedDates,
        d ∉ get_dates_needing_sync 0 10 (loadProgress (some ⟨[3], ["A"], [], false, false⟩))) ∧
    (∀ d : Nat,
        d ∈ get_dates_needing_sync 0 10 (loadProgress (some ⟨[3], ["A"], [], false, false⟩))
          ↔ 0 ≤ d ∧ d ≤ 10 ∧ d ∉ [3]) ∧
    (∀ g ∈ ["A"],
        g ∉ get_games_needing_stats ["A", "B"] []
            (loadProgress (some ⟨[3], ["A"], [], false, false⟩))) ∧
    (false = true →
        run_phase1_dates [7] 0 10 (loadProgress (some ⟨[3], ["A"], [], false, false⟩)) = []) ∧
    (∀ d ∈ run_phase1_dates [7] 0 10 (loadProgress (some ⟨[3], ["A"], [], false, false⟩)),
        d ∈ [7] ∨ (0 ≤ d ∧ d ≤ 10 ∧ d ∉ [3])) :=
  backfill_resume_skips_completed ⟨[3], ["A"], [], false, false⟩ 0 10 [7] ["A", "B"] []

/-- C10: the SYNC_LIVE_GAME handler returns True on a payload with no
game id at all (empty work is success), and with a non-empty effective
id list it returns True exactly when at least one game syncs without
raising — partial per-game failures still yield a COMPLETED task. -/
theorem live_game_handler_partial_success (p : LiveGamePayload)
    (syncOk : String → Bool) :
    ((p.gameIds = none ∨ p.gameIds = some []) → p.gameId = none →
        handle_sync_live_game p syncOk = true) ∧
    (effectiveGameIds p ≠ [] →
        (handle_sync_live_game p syncOk = true
          ↔ ∃ g ∈ effectiveGameIds p, syncOk g = true)) := by
  constructor
  · intro hids hid
    rcases hids with h | h <;> simp [handle_sync_live_game, effectiveGameIds, h, hid]
  · intro hne
    simp only [handle_sync_live_game, if_neg hne, decide_eq_true_eq, List.countP_pos_iff]

/-- Witness for `live_game_handler_partial_success`: an all-absent
payload succeeds, and a two-game payload where only "a" syncs is judged
by the existence of one success. -/
theorem live_game_handler_partial_success_witness :
    handle_sync_live_game ⟨none, none⟩ (fun _ => false) = true ∧
    (handle_sync_live_game ⟨some ["a", "b"], none⟩ (fun g => g == "a") = true
      ↔ ∃ g ∈ effectiveGameIds ⟨some ["a", "b"], none⟩, (fun g => g == "a") g = true) :=
  ⟨(live_game_handler_partial_success ⟨none, none⟩ (fun _ => false)).1 (Or.inl rfl) rfl,
    (live_game_handler_partial_success ⟨some ["a", "b"], none⟩ (fun g => g == "a")).2
      (by decide)⟩

end NbaSync
